import Mathlib

/-!
Verification of the payload-to-message rendering and delivery pipeline of
a webhook-to-chat relay bot (source: src/E2EEClient.py).

The embedding models:
- the JSON-like payload tree (`Value` / `Fields` / `Items`),
- the recursive flattening `get_all_values` (lines 204-218),
- the image probe `is_image_url` (lines 196-202),
- the scan `find_image_url` (lines 221-226),
- the dispatcher `send_message_to_matrix` (lines 228-293), as a
  trace-producing function over an explicit `World` of external
  collaborators (HTTP, template files, the chat-client upload).

External I/O is modelled by a `World` record of oracle functions; a
Python exception escaping the dispatcher is modelled by the `raised`
field of the dispatch result.  Template rendering (jinja2) returns a
Python str; the source then indexes that str with a string key
(`rendered_data["content"]["msgtype"]`, lines 190 and 285), which raises
`TypeError` unconditionally before `client.room_send` is ever called.
The model carries this error path faithfully: whenever the text template
exists, the dispatch raises `TypeError` right after rendering, so the
transport send events are never emitted and everything after the first
text-send call (lines 245-293) is dynamically dead, in the model as in
the source.
-/

namespace Webhook

mutual
/-- A JSON-like payload node, mirroring the untyped Python values handled
by `get_all_values`: scalars (str, int, bool, None), dicts and lists.
Dicts are finite key-value sequences in insertion order (`Fields`),
lists are finite sequences (`Items`). -/
inductive Value where
  | str (s : String) : Value
  | intV (n : Int) : Value
  | boolV (b : Bool) : Value
  | null : Value
  | dict (fields : Fields) : Value
  | list (items : Items) : Value
  deriving Repr

/-- The key-value items of a dict, in iteration order. -/
inductive Fields where
  | nil : Fields
  | cons (key : String) (value : Value) (rest : Fields) : Fields
  deriving Repr

/-- The items of a list, in order. -/
inductive Items where
  | nil : Items
  | cons (item : Value) (rest : Items) : Items
  deriving Repr
end

mutual
/-- Python source, E2EEClient.get_all_values (lines 204-218): iterates
over `d.items()`; a dict value is recursed; a list value is iterated,
with dict items recursed and every other item appended as-is (so a list
nested directly inside a list is appended whole, not recursed); any
other value is appended. -/
def get_all_values : Fields → List Value
  | .nil => []
  | .cons _k v rest => handle_value v ++ get_all_values rest

/-- The body of the `for key, value in d.items()` loop for one value. -/
def handle_value : Value → List Value
  | .dict fields => get_all_values fields
  | .list items => handle_items items
  | .str s => [.str s]
  | .intV n => [.intV n]
  | .boolV b => [.boolV b]
  | .null => [.null]

/-- The inner `for item in value` loop when a dict value is a list. -/
def handle_items : Items → List Value
  | .nil => []
  | .cons (.dict fields) rest => get_all_values fields ++ handle_items rest
  | .cons item rest => item :: handle_items rest
end

/-- Python `pre.startswith(s)` is `s.startswith(pre)`: character-level
prefix test, translated to the code-point list of the string. -/
def charsHavePre : List Char → List Char → Bool
  | [], _ => true
  | _ :: _, [] => false
  | p :: ps, c :: cs => p == c && charsHavePre ps cs

/-- Python `s.startswith(pre)`. -/
def pyStartswith (s pre : String) : Bool := charsHavePre pre.data s.data

/-- Characters of a string before the first slash. -/
def takeUntilSlash : List Char → List Char
  | [] => []
  | c :: cs => if c = '/' then [] else c :: takeUntilSlash cs

/-- Python `s.split("/")[0]`: the part of the string before the first
slash (the whole string when no slash occurs; `split` never returns an
empty list, so the indexing never fails). -/
def pySplitHead (s : String) : String := ⟨takeUntilSlash s.data⟩

/-- The external collaborators of the dispatcher, as oracle functions:

- `headCT url`: outcome of `requests.head(url)`; `none` models a raised
  `requests.RequestException`, `some ct` a response whose Content-Type
  header is `ct` (`none` inside when the header is absent).
- `textTemplate source` / `imageTemplate source`: contents of the file
  `templates/text/<source>.jinja2` resp. `templates/image/<source>.jinja2`,
  `none` when the file does not exist (so `open` raises).
- `getCT url`: outcome of `requests.get(url)`; `none` models a raised
  exception, `some ct` a response whose Content-Type header is `ct`.
- `uploadUri url mimetype`: outcome of `client.upload` on the fetched
  body of `url` with the given mimetype; `some uri` when the response
  contains an `UploadResponse` with `content_uri = uri`, `none` when it
  is an error response (no `UploadResponse` item). -/
structure World where
  headCT : String → Option (Option String)
  textTemplate : String → Option String
  imageTemplate : String → Option String
  getCT : String → Option (Option String)
  uploadUri : String → String → Option String

/-- Python source, E2EEClient.is_image_url (lines 196-202):
`requests.head(url)`, then `response.headers.get("Content-Type", "")`
and `content_type.startswith("image/")`; any `requests.RequestException`
is caught and `False` returned. -/
def is_image_url (w : World) (url : String) : Bool :=
  match w.headCT url with
  | none => false
  | some ct => pyStartswith (ct.getD "") "image/"

/-- Python source, the loop of E2EEClient.find_image_url (lines 223-226):
scan the flattened values in order; probe each value that is a string;
return the first probing true, else None.  The first component of the
result instruments the scan with the list of urls passed to
`is_image_url`, in order; the second component is the return value. -/
def scanValues (w : World) : List Value → List String × Option String
  | [] => ([], none)
  | .str s :: rest =>
      if is_image_url w s then ([s], some s)
      else
        let r := scanValues w rest
        (s :: r.1, r.2)
  | _ :: rest => scanValues w rest

/-- Python source, E2EEClient.find_image_url (lines 221-226):
`values = get_all_values(payload)` then the scan loop. -/
def find_image_url (w : World) (payload : Fields) : List String × Option String :=
  scanValues w (get_all_values payload)

/-- Observable calls made during a dispatch, in order:
HEAD probes, template file opens, transport sends (`client.room_send`),
the image GET, and the chat-client upload. -/
inductive Event where
  | probe (url : String) : Event
  | loadTextTemplate (source : String) : Event
  | textSend : Event
  | loadImageTemplate (source : String) : Event
  | fetch (url : String) : Event
  | uploadCall : Event
  | imageSend : Event
  deriving Repr, DecidableEq

/-- A Python exception escaping the dispatcher: `FileNotFoundError` from
an `open` on a missing template (kind is "text" or "image"), the
`TypeError` from indexing the str returned by jinja2's render with a
string key (lines 190 and 285), an uncaught `requests` exception from
`requests.get`, or an `UnboundLocalError` from reading a local variable
never assigned on the taken path. -/
inductive PyError where
  | fileNotFound (kind source : String) : PyError
  | typeError (msg : String) : PyError
  | requestError (url : String) : PyError
  | unboundLocal (name : String) : PyError
  deriving Repr, DecidableEq

/-- Python source, E2EEClient.new_send_text_message (lines 179-194):
opens `templates/text/<source>.jinja2` (raising `FileNotFoundError` when
missing) and renders it against the payload.  `rendered_data` is the str
returned by jinja2's render, and line 190 evaluates
`rendered_data["content"]["msgtype"]` — indexing a str with a string
key — which raises `TypeError` unconditionally, before `client.room_send`
is ever called.  So the function raises on every input: with the template
missing it raises `FileNotFoundError`, otherwise `TypeError`, and it
never reaches the transport send.  Returns the events of the call and the
exception it raises. -/
def new_send_text_message (w : World) (room source : String) (payload : Fields) :
    List Event × Option PyError :=
  match w.textTemplate source with
  | none => ([.loadTextTemplate source], some (.fileNotFound "text" source))
  | some _template =>
      ([.loadTextTemplate source], some (.typeError "string indices must be integers"))

/-- Python dict assignment `d[k] = v`: overwrites in place when the key
exists (position preserved), appends at the end otherwise. -/
def setKey : Fields → String → Value → Fields
  | .nil, k, v => .cons k v .nil
  | .cons k2 v2 rest, k, v =>
      if k2 = k then .cons k v rest else .cons k2 v2 (setKey rest k v)

/-- Python dict lookup `d.get(k)`. -/
def getKey : Fields → String → Option Value
  | .nil, _ => none
  | .cons k2 v2 rest, k => if k2 = k then some v2 else getKey rest k

/-- Result of one dispatch call (or of the fetch-and-upload block): the
ordered event trace, the payload dict as the caller sees it afterwards
(Python mutates it in place), whether the temporary image file still
exists afterwards, and the exception escaping, if any. -/
structure DispatchResult where
  events : List Event
  payload : Fields
  tempFileLeft : Bool
  raised : Option PyError
  deriving Repr

/-- Python source, the fetch-and-upload block of send_message_to_matrix
(lines 254-279): `requests.get(image_url)` (line 255, exceptions
uncaught), `mimetype = content_type.split("/")[0]` (line 259),
`tempfile.NamedTemporaryFile(delete=False)` (line 261) — the file is
closed at the end of the `with` block but, with `delete=False` and no
removal anywhere, it persists on every path that creates it —
`client.upload` (line 269), and `payload["mxc_uri"] = mxc_uri`
(line 279), which raises `UnboundLocalError` when the upload response
carries no `UploadResponse` item (so `mxc_uri` was never assigned).
This block is dynamically dead in the source: the `TypeError` raised
inside `new_send_text_message` (line 190) escapes the dispatcher before
line 254 can be reached. -/
def fetch_and_upload (w : World) (url : String) (payload : Fields) : DispatchResult :=
  match w.getCT url with
  | none =>
      { events := [.fetch url], payload := payload,
        tempFileLeft := false, raised := some (.requestError url) }
  | some ct =>
    let mimetype := pySplitHead (ct.getD "")
    match w.uploadUri url mimetype with
    | none =>
        { events := [.fetch url, .uploadCall], payload := payload,
          tempFileLeft := true, raised := some (.unboundLocal "mxc_uri") }
    | some uri =>
        { events := [.fetch url, .uploadCall],
          payload := setKey payload "mxc_uri" (.str uri),
          tempFileLeft := true, raised := none }

/-- Python source, E2EEClient.send_message_to_matrix (lines 228-293).

Control flow of the source, line by line:
- everything is guarded by `if source is not None` (line 235);
- `find_image_url(payload)` (line 239), then an unconditional
  `new_send_text_message` (line 242) — which raises on every input
  (`FileNotFoundError` or the line-190 `TypeError`), so the dispatch
  always ends here and everything below is dynamically dead, in the
  model exactly as in the source;
- the dead remainder, kept faithful to the source text: if an image url
  was found and is truthy (line 245 — Python truthiness, so the empty
  string counts as no image): a second `new_send_text_message`
  (line 248); open of the image template (line 251, `FileNotFoundError`
  when missing and uncaught); the fetch-and-upload block
  (lines 254-279, see `fetch_and_upload`); then line 280 renders the
  image template to a str and lines 283-288 evaluate
  `rendered_data["content"]["msgtype"]`, raising the same `TypeError`
  before `client.room_send`;
- line 293 `logging.info(response)` runs after the branch: on the
  no-image path the local `response` was never assigned, so it raises
  `UnboundLocalError`. -/
def send_message_to_matrix (w : World) (room : String) (payload : Fields)
    (source : Option String) : DispatchResult :=
  match source with
  | none => { events := [], payload := payload, tempFileLeft := false, raised := none }
  | some src =>
    let scan := find_image_url w payload
    let probeEvents := scan.1.map Event.probe
    let image_url := scan.2
    match new_send_text_message w room src payload with
    | (evs1, some e) =>
        { events := probeEvents ++ evs1, payload := payload,
          tempFileLeft := false, raised := some e }
    | (evs1, none) =>
      match image_url with
      | none =>
          { events := probeEvents ++ evs1, payload := payload,
            tempFileLeft := false, raised := some (.unboundLocal "response") }
      | some url =>
        if url = "" then
          { events := probeEvents ++ evs1, payload := payload,
            tempFileLeft := false, raised := some (.unboundLocal "response") }
        else
          match new_send_text_message w room src payload with
          | (evs2, some e) =>
              { events := probeEvents ++ evs1 ++ evs2, payload := payload,
                tempFileLeft := false, raised := some e }
          | (evs2, none) =>
            let evs := probeEvents ++ evs1 ++ evs2 ++ [.loadImageTemplate src]
            match w.imageTemplate src with
            | none =>
                { events := evs, payload := payload,
                  tempFileLeft := false, raised := some (.fileNotFound "image" src) }
            | some _template =>
              let fu := fetch_and_upload w url payload
              match fu.raised with
              | some e =>
                  { events := evs ++ fu.events, payload := fu.payload,
                    tempFileLeft := fu.tempFileLeft, raised := some e }
              | none =>
                  { events := evs ++ fu.events, payload := fu.payload,
                    tempFileLeft := fu.tempFileLeft,
                    raised := some (.typeError "string indices must be integers") }

/-! Specification-side definitions, written from the words of the spec,
to be compared with the definitions translated from the source. -/

mutual
/-- Spec notion of the leaf scalars of a payload value, in traversal
order: dicts and lists are both recursed at every depth, scalars are
emitted. -/
def leavesOfValue : Value → List Value
  | .dict fields => leavesOfFields fields
  | .list items => leavesOfItems items
  | .str s => [.str s]
  | .intV n => [.intV n]
  | .boolV b => [.boolV b]
  | .null => [.null]

/-- Leaf scalars of a dict, in iteration order. -/
def leavesOfFields : Fields → List Value
  | .nil => []
  | .cons _k v rest => leavesOfValue v ++ leavesOfFields rest

/-- Leaf scalars of a list, in order. -/
def leavesOfItems : Items → List Value
  | .nil => []
  | .cons v rest => leavesOfValue v ++ leavesOfItems rest
end

/-- Whether a value is not a list node. -/
def notList : Value → Bool
  | .list _ => false
  | _ => true

mutual
/-- No list appears directly inside a list anywhere in the value. -/
def noSeqInSeqV : Value → Bool
  | .dict fields => noSeqInSeqF fields
  | .list items => noSeqInSeqI items
  | _ => true

/-- No list appears directly inside a list anywhere in the dict. -/
def noSeqInSeqF : Fields → Bool
  | .nil => true
  | .cons _k v rest => noSeqInSeqV v && noSeqInSeqF rest

/-- Items of a list: none may itself be a list, and each is recursed. -/
def noSeqInSeqI : Items → Bool
  | .nil => true
  | .cons v rest => notList v && noSeqInSeqV v && noSeqInSeqI rest
end

/-- Spec predicate: the value is a string whose probe returns true. -/
def isImageString (w : World) : Value → Bool
  | .str s => is_image_url w s
  | _ => false

/-- Spec description of the scan result: the first string-typed element
(in the given order) for which the probe returns true, none otherwise. -/
def firstImageSpec (w : World) (vs : List Value) : Option String :=
  match vs.find? (isImageString w) with
  | some (.str s) => some s
  | _ => none

/-- The string-typed elements of a flattened value list, in order. -/
def stringLeaves : List Value → List String
  | [] => []
  | .str s :: rest => s :: stringLeaves rest
  | _ :: rest => stringLeaves rest

/-- Spec description of which candidates get probed: every string leaf up
to and including the first one probing true. -/
def probedSpec (w : World) : List String → List String
  | [] => []
  | s :: rest => if is_image_url w s then [s] else s :: probedSpec w rest

/-! Concrete worlds and payloads used to evaluate the model. -/

/-- The spec example payload: text plus a photo url that probes true. -/
def payload1 : Fields :=
  .cons "text" (.str "hello") (.cons "photo" (.str "https://x/img.png") .nil)

/-- A world where the photo url probes as an image and every external
step succeeds: templates exist, the image GET succeeds with Content-Type
image/png, and the upload yields a content uri. -/
def happyWorld : World where
  headCT := fun url =>
    if url = "https://x/img.png" then some (some "image/png") else some (some "text/html")
  textTemplate := fun _ => some "TEXT_TEMPLATE"
  imageTemplate := fun _ => some "IMAGE_TEMPLATE"
  getCT := fun _ => some (some "image/png")
  uploadUri := fun _ _ => some "mxc://server/abc"

/-- Like `happyWorld` but `requests.get` raises on every url. -/
def fetchFailWorld : World :=
  { happyWorld with getCT := fun _ => none }

/-- Like `happyWorld` but the upload returns an error response. -/
def uploadFailWorld : World :=
  { happyWorld with uploadUri := fun _ _ => none }

/-- Like `happyWorld` but no template file exists for any source. -/
def noTemplateWorld : World :=
  { happyWorld with textTemplate := fun _ => none, imageTemplate := fun _ => none }

/-- A world where every network request raises and no template exists. -/
def unreachableWorld : World where
  headCT := fun _ => none
  textTemplate := fun _ => none
  imageTemplate := fun _ => none
  getCT := fun _ => none
  uploadUri := fun _ _ => none

/-! Helper lemmas. -/

mutual
/-- On a value with no list directly inside a list, the loop body agrees
with the spec leaves. -/
theorem handle_value_eq_leaves : ∀ (v : Value), noSeqInSeqV v = true →
    handle_value v = leavesOfValue v
  | .str _s, _ => rfl
  | .intV _n, _ => rfl
  | .boolV _b, _ => rfl
  | .null, _ => rfl
  | .dict fields, h => get_all_values_eq_leaves_aux fields h
  | .list items, h => handle_items_eq_leaves items h

/-- On a dict with no list directly inside a list, `get_all_values`
agrees with the spec leaves. -/
theorem get_all_values_eq_leaves_aux : ∀ (fs : Fields), noSeqInSeqF fs = true →
    get_all_values fs = leavesOfFields fs
  | .nil, _ => rfl
  | .cons _k v rest, h => by
      have h2 : noSeqInSeqV v = true ∧ noSeqInSeqF rest = true := by
        simpa [noSeqInSeqF, Bool.and_eq_true] using h
      show handle_value v ++ get_all_values rest = leavesOfValue v ++ leavesOfFields rest
      rw [handle_value_eq_leaves v h2.1, get_all_values_eq_leaves_aux rest h2.2]

/-- On list items with no list directly inside a list, the inner loop
agrees with the spec leaves. -/
theorem handle_items_eq_leaves : ∀ (its : Items), noSeqInSeqI its = true →
    handle_items its = leavesOfItems its
  | .nil, _ => rfl
  | .cons v rest, h => by
      simp only [noSeqInSeqI, Bool.and_eq_true] at h
      obtain ⟨⟨hnl, hv⟩, hrest⟩ := h
      match v, hnl, hv with
      | .dict fields, _, hv =>
          show get_all_values fields ++ handle_items rest
              = leavesOfFields fields ++ leavesOfItems rest
          rw [get_all_values_eq_leaves_aux fields hv, handle_items_eq_leaves rest hrest]
      | .str s, _, _ =>
          show Value.str s :: handle_items rest = Value.str s :: leavesOfItems rest
          rw [handle_items_eq_leaves rest hrest]
      | .intV n, _, _ =>
          show Value.intV n :: handle_items rest = Value.intV n :: leavesOfItems rest
          rw [handle_items_eq_leaves rest hrest]
      | .boolV b, _, _ =>
          show Value.boolV b :: handle_items rest = Value.boolV b :: leavesOfItems rest
          rw [handle_items_eq_leaves rest hrest]
      | .null, _, _ =>
          show Value.null :: handle_items rest = Value.null :: leavesOfItems rest
          rw [handle_items_eq_leaves rest hrest]
      | .list _its, hnl, _ => simp [notList] at hnl
end

/-- The scan loop returns the first string element probing true and
probes exactly the string elements up to and including it. -/
theorem scanValues_spec (w : World) : ∀ vs : List Value,
    (scanValues w vs).2 = firstImageSpec w vs ∧
    (scanValues w vs).1 = probedSpec w (stringLeaves vs)
  | [] => ⟨rfl, rfl⟩
  | .str s :: rest => by
      have ih := scanValues_spec w rest
      by_cases hp : is_image_url w s = true
      · simp [scanValues, firstImageSpec, List.find?, isImageString, stringLeaves,
          probedSpec, hp]
      · simp only [Bool.not_eq_true] at hp
        simp [scanValues, firstImageSpec, List.find?, isImageString, stringLeaves,
          probedSpec, hp, ih.1, ih.2]
  | .intV _n :: rest => scanValues_spec w rest
  | .boolV _b :: rest => scanValues_spec w rest
  | .null :: rest => scanValues_spec w rest
  | .dict _fields :: rest => scanValues_spec w rest
  | .list _items :: rest => scanValues_spec w rest

/-- When no string element probes true, the scan returns none. -/
theorem scanValues_none (w : World) : ∀ vs : List Value,
    (∀ s ∈ stringLeaves vs, is_image_url w s = false) → (scanValues w vs).2 = none
  | [], _ => rfl
  | .str s :: rest, h => by
      have hs : is_image_url w s = false := h s (List.mem_cons_self s _)
      have ih := scanValues_none w rest (fun t ht => h t (List.mem_cons_of_mem s ht))
      simp [scanValues, hs, ih]
  | .intV _n :: rest, h => scanValues_none w rest h
  | .boolV _b :: rest, h => scanValues_none w rest h
  | .null :: rest, h => scanValues_none w rest h
  | .dict _fields :: rest, h => scanValues_none w rest h
  | .list _items :: rest, h => scanValues_none w rest h

/-- Python dict assignment followed by lookup of the same key. -/
theorem getKey_setKey : ∀ (fs : Fields) (k : String) (v : Value),
    getKey (setKey fs k v) k = some v
  | .nil, k, v => by simp [setKey, getKey]
  | .cons k2 v2 rest, k, v => by
      by_cases hk : k2 = k
      · simp [setKey, getKey, hk]
      · simp [setKey, getKey, hk, getKey_setKey rest k v]

/-! Claim theorems. -/

/-- Claim C1 (code bug): on the spec's example payload, whose photo url
probes true, with every external oracle succeeding, the dispatch makes
zero transport sends: the text-send call opens and renders the text
template and then raises `TypeError` at line 190 (jinja2's render
returns a str, indexed with a string key) before `client.room_send`;
the claimed one-text-send-then-one-image-send trace never occurs, and
the duplicate text render at line 248 is dead behind the same
`TypeError`. -/
theorem dispatch_type_confusion_no_text_send :
    (send_message_to_matrix happyWorld "!room:example.org" payload1 (some "slack")).events =
      [.probe "hello", .probe "https://x/img.png", .loadTextTemplate "slack"] ∧
    (send_message_to_matrix happyWorld "!room:example.org" payload1 (some "slack")).raised =
      some (.typeError "string indices must be integers") ∧
    (send_message_to_matrix happyWorld "!room:example.org" payload1
      (some "slack")).events.count Event.textSend = 0 ∧
    (send_message_to_matrix happyWorld "!room:example.org" payload1
      (some "slack")).events.count Event.imageSend = 0 := by
  refine ⟨rfl, rfl, ?_, ?_⟩ <;> decide

/-- Claim C2 (code bug): in the world where `requests.get` would raise,
the dispatch on an image-bearing payload never reaches the fetch at
line 255: the `TypeError` at line 190 escapes the dispatcher first, with
zero transport sends — against the claimed single text send, zero image
sends, and completion without raising. -/
theorem dispatch_type_confusion_fetch_unreachable :
    (send_message_to_matrix fetchFailWorld "!room:example.org" payload1 (some "slack")).events =
      [.probe "hello", .probe "https://x/img.png", .loadTextTemplate "slack"] ∧
    (send_message_to_matrix fetchFailWorld "!room:example.org" payload1 (some "slack")).raised =
      some (.typeError "string indices must be integers") ∧
    Event.fetch "https://x/img.png" ∉
      (send_message_to_matrix fetchFailWorld "!room:example.org" payload1
        (some "slack")).events ∧
    (send_message_to_matrix fetchFailWorld "!room:example.org" payload1
      (some "slack")).events.count Event.textSend = 0 := by
  refine ⟨rfl, rfl, ?_, ?_⟩ <;> decide

/-- Claim C3, counterexample: on a payload with a list nested directly
inside a list, `get_all_values` emits the inner list as a single value
instead of recursing to its scalar leaves, so it does not emit the
multiset of leaf scalars. -/
theorem get_all_values_misses_nested_list_leaf :
    get_all_values (.cons "a" (.list (.cons (.list (.cons (.intV 1) .nil)) .nil)) .nil) ≠
      leavesOfFields (.cons "a" (.list (.cons (.list (.cons (.intV 1) .nil)) .nil)) .nil) := by
  intro h
  rw [show get_all_values
        (.cons "a" (.list (.cons (.list (.cons (.intV 1) .nil)) .nil)) .nil)
      = [.list (.cons (.intV 1) .nil)] from rfl,
    show leavesOfFields
        (.cons "a" (.list (.cons (.list (.cons (.intV 1) .nil)) .nil)) .nil)
      = [.intV 1] from rfl] at h
  simp at h

/-- Claim C3 as amended: for every finite payload tree in which no list
appears directly inside a list, `get_all_values` terminates (it is a
total function) and emits exactly the leaf scalars in traversal order,
mappings nested in sequences being recursed like top-level mappings;
a list directly inside a list is emitted whole as a single value. -/
theorem get_all_values_eq_leaves (fs : Fields) (h : noSeqInSeqF fs = true) :
    get_all_values fs = leavesOfFields fs :=
  get_all_values_eq_leaves_aux fs h

/-- Witness for C3: a payload nesting a dict inside a list, evaluated
concretely. -/
theorem get_all_values_eq_leaves_witness :
    noSeqInSeqF (.cons "a" (.intV 1) (.cons "b"
      (.list (.cons (.dict (.cons "c" (.str "x") .nil)) (.cons (.intV 2) .nil))) .nil)) = true ∧
    get_all_values (.cons "a" (.intV 1) (.cons "b"
      (.list (.cons (.dict (.cons "c" (.str "x") .nil)) (.cons (.intV 2) .nil))) .nil)) =
    leavesOfFields (.cons "a" (.intV 1) (.cons "b"
      (.list (.cons (.dict (.cons "c" (.str "x") .nil)) (.cons (.intV 2) .nil))) .nil)) :=
  ⟨by decide, get_all_values_eq_leaves _ (by decide)⟩

/-- Claim C4: `find_image_url` returns the first string-typed element of
the flattened payload for which the probe returns true (none when no
string element probes true or none exists), and the probed candidates
are exactly the string elements up to and including the first success —
non-strings are never probed and probing stops at the first success. -/
theorem find_image_url_first_probing_string_leaf (w : World) (payload : Fields) :
    (find_image_url w payload).2 = firstImageSpec w (get_all_values payload) ∧
    (find_image_url w payload).1 = probedSpec w (stringLeaves (get_all_values payload)) :=
  scanValues_spec w (get_all_values payload)

/-- Claim C5: the probe returns true iff the HEAD request succeeds and
its Content-Type header starts with "image/"; on a network failure it
returns false, and probing the same unreachable url twice returns false
both times with no exception escaping (the model is a total function). -/
theorem is_image_url_content_type_spec (w : World) (url : String) :
    (is_image_url w url = true ↔
      ∃ ct, w.headCT url = some ct ∧ pyStartswith (ct.getD "") "image/" = true) ∧
    (w.headCT url = none →
      is_image_url w url = false ∧ is_image_url w url = false) := by
  constructor
  · cases h : w.headCT url with
    | none => simp [is_image_url, h]
    | some ct => simp [is_image_url, h]
  · intro h
    simp [is_image_url, h]

/-- Witness for C5: probing an unreachable url twice returns false both
times. -/
theorem is_image_url_content_type_spec_witness :
    is_image_url unreachableWorld "https://down.example/a.png" = false ∧
    is_image_url unreachableWorld "https://down.example/a.png" = false :=
  (is_image_url_content_type_spec unreachableWorld "https://down.example/a.png").2 rfl

/-- Claim C6, counterexample: with no template registered for the source
and the payload carrying a probing-true image url, the dispatch makes a
single template-load attempt — the text one — which raises and aborts
the call; the image-kind attempt never happens, so it is not the case
that both send attempts fail. -/
theorem dispatch_missing_templates_one_attempt_only :
    (send_message_to_matrix noTemplateWorld "!room:example.org" payload1 (some "slack")).events =
      [.probe "hello", .probe "https://x/img.png", .loadTextTemplate "slack"] ∧
    (send_message_to_matrix noTemplateWorld "!room:example.org" payload1 (some "slack")).raised =
      some (.fileNotFound "text" "slack") := by
  exact ⟨rfl, rfl⟩

/-- Claim C6 as amended: if the source has no registered text template,
the text send attempt fails with a typed template-not-found error that
propagates out of the dispatcher, aborting the call before the
image-kind template is ever consulted; no transport send call is
made. -/
theorem dispatch_missing_text_template_aborts (w : World) (room : String)
    (payload : Fields) (src : String) (h : w.textTemplate src = none) :
    (send_message_to_matrix w room payload (some src)).raised =
      some (.fileNotFound "text" src) ∧
    Event.textSend ∉ (send_message_to_matrix w room payload (some src)).events ∧
    Event.imageSend ∉ (send_message_to_matrix w room payload (some src)).events ∧
    ∀ s, Event.loadImageTemplate s ∉ (send_message_to_matrix w room payload (some src)).events := by
  simp [send_message_to_matrix, new_send_text_message, h]

/-- Witness for C6: the amended statement evaluated at a world with no
templates. -/
theorem dispatch_missing_text_template_aborts_witness :
    (send_message_to_matrix noTemplateWorld "!room:example.org" payload1 (some "slack")).raised =
      some (.fileNotFound "text" "slack") :=
  (dispatch_missing_text_template_aborts noTemplateWorld "!room:example.org" payload1 "slack" rfl).1

/-- Claim C7 (code bug): the fetch-and-upload block (lines 254-279), on
any invocation whose GET succeeds, writes the body to a temporary file
created with delete=False and never removed, so the file still exists
after the block exits, on the upload-success exit and on the
upload-failure exit alike — against the claimed cleanup on every exit
path.  Moreover the dispatcher never invokes the block at all (the
line-190 `TypeError` escapes first), so no dispatch call ever creates a
temporary file. -/
theorem fetch_and_upload_temp_file_persists :
    (fetch_and_upload happyWorld "https://x/img.png" payload1).tempFileLeft = true ∧
    (fetch_and_upload uploadFailWorld "https://x/img.png" payload1).tempFileLeft = true ∧
    ∀ (w : World) (room : String) (payload : Fields) (source : Option String),
      (send_message_to_matrix w room payload source).tempFileLeft = false := by
  refine ⟨rfl, rfl, ?_⟩
  intro w room payload source
  cases source with
  | none => rfl
  | some src =>
      cases htt : w.textTemplate src <;>
        simp [send_message_to_matrix, new_send_text_message, htt]

/-- Claim C8: on a payload in which no string leaf probes true, the
chat-client upload capability is never invoked during the dispatch
call. -/
theorem dispatch_no_image_no_upload (w : World) (room : String) (payload : Fields)
    (source : Option String)
    (h : ∀ s ∈ stringLeaves (get_all_values payload), is_image_url w s = false) :
    Event.uploadCall ∉ (send_message_to_matrix w room payload source).events := by
  cases source with
  | none => simp [send_message_to_matrix]
  | some src =>
    have hnone : (scanValues w (get_all_values payload)).2 = none :=
      scanValues_none w (get_all_values payload) h
    cases htt : w.textTemplate src with
    | none => simp [send_message_to_matrix, new_send_text_message, htt]
    | some t =>
        simp [send_message_to_matrix, new_send_text_message, htt, find_image_url, hnone]

/-- Witness for C8: a payload whose strings all probe false in a world
with unreachable network. -/
theorem dispatch_no_image_no_upload_witness :
    Event.uploadCall ∉ (send_message_to_matrix unreachableWorld "!room:example.org"
      payload1 (some "slack")).events :=
  dispatch_no_image_no_upload unreachableWorld "!room:example.org" payload1 (some "slack")
    (fun _s _hs => rfl)

/-- Claim C9: when the source identifier is None, the dispatch call does
nothing at all — no probe, no template load, no transport send, no
upload — leaves the payload unchanged, and returns normally. -/
theorem dispatch_none_source_is_noop (w : World) (room : String) (payload : Fields) :
    send_message_to_matrix w room payload none =
      { events := [], payload := payload, tempFileLeft := false, raised := none } :=
  rfl

/-- Claim C10 (code bug): no dispatch call ever mutates the caller's
payload — the assignment `payload["mxc_uri"] = mxc_uri` at line 279 is
dead code, unreachable behind the unconditional line-190 `TypeError` —
so the payload after any call equals the payload before it; in
particular, on the all-success world with an image found, the "mxc_uri"
key is absent after the call, against the claimed in-place mutation. -/
theorem dispatch_never_mutates_payload :
    (∀ (w : World) (room : String) (payload : Fields) (source : Option String),
      (send_message_to_matrix w room payload source).payload = payload) ∧
    getKey (send_message_to_matrix happyWorld "!room:example.org" payload1
      (some "slack")).payload "mxc_uri" = none := by
  refine ⟨?_, rfl⟩
  intro w room payload source
  cases source with
  | none => rfl
  | some src =>
      cases htt : w.textTemplate src <;>
        simp [send_message_to_matrix, new_send_text_message, htt]

end Webhook
